import Mathlib

/-!
Verification development for the Immich library converter
(`app/transcode.py`, `app/main.py`, `app/immich_api.py`).

Shallow embedding conventions:
* file contents are byte lists (`List Nat`, each entry < 256 by construction
  of the inputs we consider; the code only ever compares bytes for equality);
* a file that cannot be opened (`OSError` in the source) is `none`, an
  existing file with content `bs` is `some bs`;
* external subprocess invocations are modelled by oracle records describing
  their outcomes, and every model function returns, next to its result, the
  trace of the external calls it issued.
-/

set_option autoImplicit false

namespace ImmichConvert

/-! ### transcode.py: magic-byte tables (lines 18-27) -/

/-- ISOBMFF JXL container signature. -/
def jxlContainerMagic : List Nat :=
  [0x00, 0x00, 0x00, 0x0c, 0x4a, 0x58, 0x4c, 0x20, 0x0d, 0x0a, 0x87, 0x0a]

def pngMagic : List Nat := [0x89, 0x50, 0x4e, 0x47, 0x0d, 0x0a, 0x1a, 0x0a]

def jpgMagic : List Nat := [0xff, 0xd8, 0xff]

/-- Bare JXL codestream signature. -/
def jxlBareMagic : List Nat := [0xff, 0x0a]

def tiffLeMagic : List Nat := [0x49, 0x49, 0x2a, 0x00]

def tiffBeMagic : List Nat := [0x4d, 0x4d, 0x00, 0x2a]

def gifMagic : List Nat := [0x47, 0x49, 0x46, 0x38]

def bmpMagic : List Nat := [0x42, 0x4d]

/-- The `MAGIC_BYTES` dict of `transcode.py`, in insertion order (Python dicts
iterate in insertion order, and `detect_format` returns the first match). -/
def MAGIC_BYTES : List (List Nat × String) :=
  [(jxlContainerMagic, "jxl"), (pngMagic, "png"), (jpgMagic, "jpg"),
   (jxlBareMagic, "jxl"), (tiffLeMagic, "tiff"), (tiffBeMagic, "tiff"),
   (gifMagic, "gif"), (bmpMagic, "bmp")]

def riffMagic : List Nat := [0x52, 0x49, 0x46, 0x46]

/-- Matroska / WebM signature checked at `transcode.py` lines 58-60. -/
def mkvMagic : List Nat := [0x1a, 0x45, 0xdf, 0xa3]

def webpBrand : List Nat := [0x57, 0x45, 0x42, 0x50]

def webxBrand : List Nat := [0x57, 0x45, 0x42, 0x58]

def aviBrand : List Nat := [0x41, 0x56, 0x49, 0x20]

def ftypTag : List Nat := [0x66, 0x74, 0x79, 0x70]

/-- QuickTime atom types recognized without an `ftyp` box:
moov, mdat, wide, skip, free, pnot. -/
def qtAtoms : List (List Nat) :=
  [[0x6d, 0x6f, 0x6f, 0x76], [0x6d, 0x64, 0x61, 0x74], [0x77, 0x69, 0x64, 0x65],
   [0x73, 0x6b, 0x69, 0x70], [0x66, 0x72, 0x65, 0x65], [0x70, 0x6e, 0x6f, 0x74]]

/-- Python slice `l[a:b]` (for `a ≤ b`). -/
def pySlice (l : List Nat) (a b : Nat) : List Nat := (l.drop a).take (b - a)

/-- Python `bytes.decode("ascii", errors="ignore")` followed by `str.lower()`,
on the byte values: non-ASCII bytes are dropped, ASCII uppercase is lowered. -/
def asciiIgnoreLower (bs : List Nat) : List Nat :=
  (bs.filter (fun b => b ≤ 0x7f)).map
    (fun b => if 0x41 ≤ b ∧ b ≤ 0x5a then b + 0x20 else b)

def heicBrand : List Nat := [0x68, 0x65, 0x69, 0x63]
def heixBrand : List Nat := [0x68, 0x65, 0x69, 0x78]
def mif1Brand : List Nat := [0x6d, 0x69, 0x66, 0x31]
def msf1Brand : List Nat := [0x6d, 0x73, 0x66, 0x31]
def avifBrand : List Nat := [0x61, 0x76, 0x69, 0x66]
def avisBrand : List Nat := [0x61, 0x76, 0x69, 0x73]

/-- Body of `detect_format` (`transcode.py` lines 41-79) applied to the
32-byte header it reads.  The Python nested `if` blocks that fall through are
flattened into an equivalent `if`/`else if` chain whose conditions conjoin
the guards on the path to each `return`. -/
def detectBytes (header : List Nat) : Option String :=
  match MAGIC_BYTES.find? (fun p => p.fst.isPrefixOf header) with
  | some p => some p.snd
  | none =>
    if riffMagic.isPrefixOf header ∧ 12 ≤ header.length ∧
        (pySlice header 8 12 = webpBrand ∨ pySlice header 8 12 = webxBrand) then
      some "webp"
    else if riffMagic.isPrefixOf header ∧ 12 ≤ header.length ∧
        pySlice header 8 12 = aviBrand then
      some "avi"
    else if mkvMagic.isPrefixOf header then
      some "mkv"
    else if 12 ≤ header.length ∧ pySlice header 4 8 = ftypTag then
      let brand := asciiIgnoreLower (pySlice header 8 12)
      if brand = heicBrand ∨ brand = heixBrand ∨ brand = mif1Brand ∨ brand = msf1Brand then
        some "heic"
      else if brand = avifBrand ∨ brand = avisBrand then
        some "avif"
      else
        some "mp4"
    else if 8 ≤ header.length ∧ pySlice header 4 8 ∈ qtAtoms then
      some "mp4"
    else
      none

/-- `detect_format(path)`: `none` input models a missing/unreadable file
(`OSError` is caught and turned into `None`); otherwise the function reads
the first 32 bytes and classifies them.  Total and deterministic by type. -/
def detect_format : Option (List Nat) → Option String
  | none => none
  | some bytes => detectBytes (bytes.take 32)

/-- `validate_output(path, expected_format)` (`transcode.py` lines 113-119):
false for a missing file, false for a zero-length file, otherwise compares
the sniffed format with the expected one.  A pure query of the file bytes. -/
def validate_output (file : Option (List Nat)) (expected_format : String) : Bool :=
  match file with
  | none => false
  | some bs =>
    if bs.length = 0 then false
    else decide (detect_format (some bs) = some expected_format)

/-! ### Sniffer lemmas feeding claim C3 -/

theorem detect_png (r : List Nat) : detect_format (some (pngMagic ++ r)) = some "png" := by
  simp [detect_format, detectBytes, MAGIC_BYTES, pngMagic, jxlContainerMagic,
    List.isPrefixOf_cons₂]

theorem detect_jpg (r : List Nat) : detect_format (some (jpgMagic ++ r)) = some "jpg" := by
  simp [detect_format, detectBytes, MAGIC_BYTES, jpgMagic, pngMagic, jxlContainerMagic,
    List.isPrefixOf_cons₂]

theorem detect_jxl_bare (r : List Nat) :
    detect_format (some (jxlBareMagic ++ r)) = some "jxl" := by
  simp [detect_format, detectBytes, MAGIC_BYTES, jxlBareMagic, jpgMagic, pngMagic,
    jxlContainerMagic, List.isPrefixOf_cons₂]

theorem detect_jxl_container (r : List Nat) :
    detect_format (some (jxlContainerMagic ++ r)) = some "jxl" := by
  simp [detect_format, detectBytes, MAGIC_BYTES, jxlContainerMagic, List.isPrefixOf_cons₂]

theorem detect_webp (a b c d : Nat) (r : List Nat) :
    detect_format (some (riffMagic ++ [a, b, c, d] ++ webpBrand ++ r)) = some "webp" := by
  simp [detect_format, detectBytes, MAGIC_BYTES, riffMagic, webpBrand, jxlContainerMagic,
    pngMagic, jpgMagic, jxlBareMagic, tiffLeMagic, tiffBeMagic, gifMagic, bmpMagic,
    pySlice, List.isPrefixOf_cons₂]

theorem detect_webx (a b c d : Nat) (r : List Nat) :
    detect_format (some (riffMagic ++ [a, b, c, d] ++ webxBrand ++ r)) = some "webp" := by
  simp [detect_format, detectBytes, MAGIC_BYTES, riffMagic, webpBrand, webxBrand,
    jxlContainerMagic, pngMagic, jpgMagic, jxlBareMagic, tiffLeMagic, tiffBeMagic,
    gifMagic, bmpMagic, pySlice, List.isPrefixOf_cons₂]

theorem detect_avi (a b c d : Nat) (r : List Nat) :
    detect_format (some (riffMagic ++ [a, b, c, d] ++ aviBrand ++ r)) = some "avi" := by
  simp [detect_format, detectBytes, MAGIC_BYTES, riffMagic, webpBrand, webxBrand, aviBrand,
    jxlContainerMagic, pngMagic, jpgMagic, jxlBareMagic, tiffLeMagic, tiffBeMagic,
    gifMagic, bmpMagic, pySlice, List.isPrefixOf_cons₂]

/-- Generic evaluation of the `ftyp` disambiguation rule: when no magic-byte
entry matched, the header is not Matroska, and the raw brand is not one of the
RIFF brands, the result is decided by the decoded, lower-cased brand. -/
theorem detect_ftyp_generic (b0 b1 b2 b3 c0 c1 c2 c3 : Nat) (r : List Nat)
    (hmagic : MAGIC_BYTES.find? (fun p =>
      p.fst.isPrefixOf (([b0, b1, b2, b3] ++ ftypTag ++ [c0, c1, c2, c3] ++ r).take 32)) = none)
    (hmkv : mkvMagic.isPrefixOf
      (([b0, b1, b2, b3] ++ ftypTag ++ [c0, c1, c2, c3] ++ r).take 32) = false)
    (hbrand : [c0, c1, c2, c3] ≠ webpBrand ∧ [c0, c1, c2, c3] ≠ webxBrand ∧
      [c0, c1, c2, c3] ≠ aviBrand) :
    detect_format (some ([b0, b1, b2, b3] ++ ftypTag ++ [c0, c1, c2, c3] ++ r)) =
      some (if asciiIgnoreLower [c0, c1, c2, c3] = heicBrand ∨
              asciiIgnoreLower [c0, c1, c2, c3] = heixBrand ∨
              asciiIgnoreLower [c0, c1, c2, c3] = mif1Brand ∨
              asciiIgnoreLower [c0, c1, c2, c3] = msf1Brand then "heic"
            else if asciiIgnoreLower [c0, c1, c2, c3] = avifBrand ∨
              asciiIgnoreLower [c0, c1, c2, c3] = avisBrand then "avif"
            else "mp4") := by
  obtain ⟨hb1, hb2, hb3⟩ := hbrand
  simp only [detect_format]
  rw [detectBytes, hmagic]
  simp [mkvMagic, List.isPrefixOf_cons₂] at hmkv
  simp [ftypTag, pySlice, hb1, hb2, hb3]
  rw [if_neg ?hneg]
  · split_ifs <;> rfl
  case hneg =>
    rintro ⟨t, ht⟩
    simp [mkvMagic] at ht
    exact hmkv ht.1 ht.2.1 ht.2.2.1 ht.2.2.2.1

theorem detect_heic (b0 b1 b2 b3 : Nat) (brand : List Nat) (r : List Nat)
    (hb : brand = heicBrand ∨ brand = heixBrand ∨ brand = mif1Brand ∨ brand = msf1Brand)
    (hmagic : MAGIC_BYTES.find? (fun p =>
      p.fst.isPrefixOf (([b0, b1, b2, b3] ++ ftypTag ++ brand ++ r).take 32)) = none)
    (hmkv : mkvMagic.isPrefixOf
      (([b0, b1, b2, b3] ++ ftypTag ++ brand ++ r).take 32) = false) :
    detect_format (some ([b0, b1, b2, b3] ++ ftypTag ++ brand ++ r)) = some "heic" := by
  rcases hb with hb | hb | hb | hb <;> subst hb
  · exact (detect_ftyp_generic b0 b1 b2 b3 0x68 0x65 0x69 0x63 r hmagic hmkv
      (by decide)).trans (by decide)
  · exact (detect_ftyp_generic b0 b1 b2 b3 0x68 0x65 0x69 0x78 r hmagic hmkv
      (by decide)).trans (by decide)
  · exact (detect_ftyp_generic b0 b1 b2 b3 0x6d 0x69 0x66 0x31 r hmagic hmkv
      (by decide)).trans (by decide)
  · exact (detect_ftyp_generic b0 b1 b2 b3 0x6d 0x73 0x66 0x31 r hmagic hmkv
      (by decide)).trans (by decide)

theorem detect_avif (b0 b1 b2 b3 : Nat) (brand : List Nat) (r : List Nat)
    (hb : brand = avifBrand ∨ brand = avisBrand)
    (hmagic : MAGIC_BYTES.find? (fun p =>
      p.fst.isPrefixOf (([b0, b1, b2, b3] ++ ftypTag ++ brand ++ r).take 32)) = none)
    (hmkv : mkvMagic.isPrefixOf
      (([b0, b1, b2, b3] ++ ftypTag ++ brand ++ r).take 32) = false) :
    detect_format (some ([b0, b1, b2, b3] ++ ftypTag ++ brand ++ r)) = some "avif" := by
  rcases hb with hb | hb <;> subst hb
  · exact (detect_ftyp_generic b0 b1 b2 b3 0x61 0x76 0x69 0x66 r hmagic hmkv
      (by decide)).trans (by decide)
  · exact (detect_ftyp_generic b0 b1 b2 b3 0x61 0x76 0x69 0x73 r hmagic hmkv
      (by decide)).trans (by decide)

theorem detect_ftyp_other_mp4 (b0 b1 b2 b3 c0 c1 c2 c3 : Nat) (r : List Nat)
    (hmagic : MAGIC_BYTES.find? (fun p =>
      p.fst.isPrefixOf (([b0, b1, b2, b3] ++ ftypTag ++ [c0, c1, c2, c3] ++ r).take 32)) = none)
    (hmkv : mkvMagic.isPrefixOf
      (([b0, b1, b2, b3] ++ ftypTag ++ [c0, c1, c2, c3] ++ r).take 32) = false)
    (hriff : [c0, c1, c2, c3] ≠ webpBrand ∧ [c0, c1, c2, c3] ≠ webxBrand ∧
      [c0, c1, c2, c3] ≠ aviBrand)
    (hheic : asciiIgnoreLower [c0, c1, c2, c3] ≠ heicBrand ∧
      asciiIgnoreLower [c0, c1, c2, c3] ≠ heixBrand ∧
      asciiIgnoreLower [c0, c1, c2, c3] ≠ mif1Brand ∧
      asciiIgnoreLower [c0, c1, c2, c3] ≠ msf1Brand)
    (havif : asciiIgnoreLower [c0, c1, c2, c3] ≠ avifBrand ∧
      asciiIgnoreLower [c0, c1, c2, c3] ≠ avisBrand) :
    detect_format (some ([b0, b1, b2, b3] ++ ftypTag ++ [c0, c1, c2, c3] ++ r)) =
      some "mp4" := by
  rw [detect_ftyp_generic b0 b1 b2 b3 c0 c1 c2 c3 r hmagic hmkv hriff]
  rw [if_neg (by tauto), if_neg (by tauto)]

theorem detect_qt_atom_mp4 (b0 b1 b2 b3 : Nat) (atom : List Nat) (r : List Nat)
    (ha : atom ∈ qtAtoms)
    (hmagic : MAGIC_BYTES.find? (fun p =>
      p.fst.isPrefixOf (([b0, b1, b2, b3] ++ atom ++ r).take 32)) = none)
    (hriff : riffMagic.isPrefixOf (([b0, b1, b2, b3] ++ atom ++ r).take 32) = false)
    (hmkv : mkvMagic.isPrefixOf (([b0, b1, b2, b3] ++ atom ++ r).take 32) = false) :
    detect_format (some ([b0, b1, b2, b3] ++ atom ++ r)) = some "mp4" := by
  have hcases : atom = [0x6d, 0x6f, 0x6f, 0x76] ∨ atom = [0x6d, 0x64, 0x61, 0x74] ∨
      atom = [0x77, 0x69, 0x64, 0x65] ∨ atom = [0x73, 0x6b, 0x69, 0x70] ∨
      atom = [0x66, 0x72, 0x65, 0x65] ∨ atom = [0x70, 0x6e, 0x6f, 0x74] := by
    simpa [qtAtoms] using ha
  rcases hcases with h | h | h | h | h | h <;> subst h <;>
  · simp only [detect_format]
    rw [detectBytes, hmagic]
    simp [riffMagic, List.isPrefixOf_cons₂] at hriff
    simp [mkvMagic, List.isPrefixOf_cons₂] at hmkv
    simp [pySlice, ftypTag, qtAtoms]
    have hR : ∀ (l : List Nat), ¬ (riffMagic <+: b0 :: b1 :: b2 :: b3 :: l) := by
      rintro l ⟨t, ht⟩
      simp [riffMagic] at ht
      exact hriff ht.1 ht.2.1 ht.2.2.1 ht.2.2.2.1
    have hM : ∀ (l : List Nat), ¬ (mkvMagic <+: b0 :: b1 :: b2 :: b3 :: l) := by
      rintro l ⟨t, ht⟩
      simp [mkvMagic] at ht
      exact hmkv ht.1 ht.2.1 ht.2.2.1 ht.2.2.2.1
    rw [if_neg ?g1, if_neg ?g2, if_neg ?g3]
    case g1 => exact fun h => hR _ h.1
    case g2 => exact fun h => hR _ h.1
    case g3 => exact hM _

/-- A header on which none of the rules of `detect_format` fires is left
unclassified. -/
theorem detect_unrecognized (header : List Nat)
    (hmagic : MAGIC_BYTES.find? (fun p => p.fst.isPrefixOf header) = none)
    (hriff : riffMagic.isPrefixOf header = false)
    (hmkv : mkvMagic.isPrefixOf header = false)
    (hftyp : ¬(12 ≤ header.length ∧ pySlice header 4 8 = ftypTag))
    (hqt : ¬(8 ≤ header.length ∧ pySlice header 4 8 ∈ qtAtoms)) :
    detectBytes header = none := by
  rw [detectBytes, hmagic]
  rw [if_neg (by simp [hriff]), if_neg (by simp [hriff]), if_neg (by simp [hmkv]),
    if_neg hftyp, if_neg hqt]

/-- C3: image-format sniffing classifies byte sequences exactly as the spec
table says: the PNG, JPEG, bare-JXL and container-JXL signatures map to
"png"/"jpg"/"jxl"; a RIFF container maps to "webp" for brands WEBP/WEBX and
"avi" for brand 'AVI '; an `ftyp` box (once no magic-byte entry and neither the
Matroska rule nor a RIFF brand applies) maps to "heic" for brands
heic/heix/mif1/msf1, to "avif" for avif/avis, and to "mp4" for every other
brand; QuickTime atoms moov/mdat/wide/skip/free/pnot at bytes 4-8 map to "mp4";
an empty file, a missing/unreadable file, and a header matched by no rule give
no classification.  Totality, determinism, and freedom from exceptions hold by
construction: `detect_format` is a total Lean function of the file bytes, with
`none` input modelling the caught `OSError`. -/
theorem claim_C3_sniffer_classification :
    (∀ r, detect_format (some (pngMagic ++ r)) = some "png") ∧
    (∀ r, detect_format (some (jpgMagic ++ r)) = some "jpg") ∧
    (∀ r, detect_format (some (jxlBareMagic ++ r)) = some "jxl") ∧
    (∀ r, detect_format (some (jxlContainerMagic ++ r)) = some "jxl") ∧
    (∀ a b c d r,
      detect_format (some (riffMagic ++ [a, b, c, d] ++ webpBrand ++ r)) = some "webp") ∧
    (∀ a b c d r,
      detect_format (some (riffMagic ++ [a, b, c, d] ++ webxBrand ++ r)) = some "webp") ∧
    (∀ a b c d r,
      detect_format (some (riffMagic ++ [a, b, c, d] ++ aviBrand ++ r)) = some "avi") ∧
    (∀ b0 b1 b2 b3 brand r,
      (brand = heicBrand ∨ brand = heixBrand ∨ brand = mif1Brand ∨ brand = msf1Brand) →
      MAGIC_BYTES.find? (fun p =>
        p.fst.isPrefixOf (([b0, b1, b2, b3] ++ ftypTag ++ brand ++ r).take 32)) = none →
      mkvMagic.isPrefixOf (([b0, b1, b2, b3] ++ ftypTag ++ brand ++ r).take 32) = false →
      detect_format (some ([b0, b1, b2, b3] ++ ftypTag ++ brand ++ r)) = some "heic") ∧
    (∀ b0 b1 b2 b3 brand r,
      (brand = avifBrand ∨ brand = avisBrand) →
      MAGIC_BYTES.find? (fun p =>
        p.fst.isPrefixOf (([b0, b1, b2, b3] ++ ftypTag ++ brand ++ r).take 32)) = none →
      mkvMagic.isPrefixOf (([b0, b1, b2, b3] ++ ftypTag ++ brand ++ r).take 32) = false →
      detect_format (some ([b0, b1, b2, b3] ++ ftypTag ++ brand ++ r)) = some "avif") ∧
    (∀ b0 b1 b2 b3 c0 c1 c2 c3 r,
      MAGIC_BYTES.find? (fun p => p.fst.isPrefixOf
        (([b0, b1, b2, b3] ++ ftypTag ++ [c0, c1, c2, c3] ++ r).take 32)) = none →
      mkvMagic.isPrefixOf
        (([b0, b1, b2, b3] ++ ftypTag ++ [c0, c1, c2, c3] ++ r).take 32) = false →
      ([c0, c1, c2, c3] ≠ webpBrand ∧ [c0, c1, c2, c3] ≠ webxBrand ∧
        [c0, c1, c2, c3] ≠ aviBrand) →
      (asciiIgnoreLower [c0, c1, c2, c3] ≠ heicBrand ∧
        asciiIgnoreLower [c0, c1, c2, c3] ≠ heixBrand ∧
        asciiIgnoreLower [c0, c1, c2, c3] ≠ mif1Brand ∧
        asciiIgnoreLower [c0, c1, c2, c3] ≠ msf1Brand) →
      (asciiIgnoreLower [c0, c1, c2, c3] ≠ avifBrand ∧
        asciiIgnoreLower [c0, c1, c2, c3] ≠ avisBrand) →
      detect_format (some ([b0, b1, b2, b3] ++ ftypTag ++ [c0, c1, c2, c3] ++ r)) =
        some "mp4") ∧
    (∀ b0 b1 b2 b3 atom r, atom ∈ qtAtoms →
      MAGIC_BYTES.find? (fun p =>
        p.fst.isPrefixOf (([b0, b1, b2, b3] ++ atom ++ r).take 32)) = none →
      riffMagic.isPrefixOf (([b0, b1, b2, b3] ++ atom ++ r).take 32) = false →
      mkvMagic.isPrefixOf (([b0, b1, b2, b3] ++ atom ++ r).take 32) = false →
      detect_format (some ([b0, b1, b2, b3] ++ atom ++ r)) = some "mp4") ∧
    detect_format (some []) = none ∧
    detect_format none = none ∧
    (∀ header,
      MAGIC_BYTES.find? (fun p => p.fst.isPrefixOf header) = none →
      riffMagic.isPrefixOf header = false →
      mkvMagic.isPrefixOf header = false →
      ¬(12 ≤ header.length ∧ pySlice header 4 8 = ftypTag) →
      ¬(8 ≤ header.length ∧ pySlice header 4 8 ∈ qtAtoms) →
      detectBytes header = none) :=
  ⟨detect_png, detect_jpg, detect_jxl_bare, detect_jxl_container, detect_webp,
   detect_webx, detect_avi,
   fun b0 b1 b2 b3 brand r hb hm hk => detect_heic b0 b1 b2 b3 brand r hb hm hk,
   fun b0 b1 b2 b3 brand r hb hm hk => detect_avif b0 b1 b2 b3 brand r hb hm hk,
   fun b0 b1 b2 b3 c0 c1 c2 c3 r hm hk h1 h2 h3 =>
     detect_ftyp_other_mp4 b0 b1 b2 b3 c0 c1 c2 c3 r hm hk h1 h2 h3,
   fun b0 b1 b2 b3 atom r ha hm hr hk => detect_qt_atom_mp4 b0 b1 b2 b3 atom r ha hm hr hk,
   rfl, rfl,
   fun header h1 h2 h3 h4 h5 => detect_unrecognized header h1 h2 h3 h4 h5⟩

/-- Witness for C3: the classification theorem applied at concrete headers,
discharging every hypothesis by computation. -/
theorem claim_C3_witness :
    detect_format (some (pngMagic ++ [0, 1])) = some "png" ∧
    detect_format (some ([0, 0, 0, 0x18] ++ ftypTag ++ heicBrand ++ [5])) = some "heic" ∧
    detect_format (some ([0, 0, 0, 0x18] ++ ftypTag ++ avifBrand ++ [])) = some "avif" ∧
    detect_format (some ([0, 0, 0, 0x18] ++ ftypTag ++ [0x69, 0x73, 0x6f, 0x6d] ++ [])) =
      some "mp4" ∧
    detect_format (some ([0, 0, 0, 0x18] ++ [0x6d, 0x6f, 0x6f, 0x76] ++ [2])) = some "mp4" ∧
    detectBytes [9, 9, 9] = none := by
  have H := claim_C3_sniffer_classification
  refine ⟨H.1 [0, 1], ?_, ?_, ?_, ?_, ?_⟩
  · exact H.2.2.2.2.2.2.2.1 0 0 0 0x18 heicBrand [5] (Or.inl rfl) (by decide) (by decide)
  · exact H.2.2.2.2.2.2.2.2.1 0 0 0 0x18 avifBrand [] (Or.inl rfl) (by decide) (by decide)
  · exact H.2.2.2.2.2.2.2.2.2.1 0 0 0 0x18 0x69 0x73 0x6f 0x6d [] (by decide) (by decide)
      (by decide) (by decide) (by decide)
  · exact H.2.2.2.2.2.2.2.2.2.2.1 0 0 0 0x18 [0x6d, 0x6f, 0x6f, 0x76] [2] (by decide)
      (by decide) (by decide) (by decide)
  · exact H.2.2.2.2.2.2.2.2.2.2.2.2.2 [9, 9, 9] (by decide) (by decide) (by decide)
      (by decide) (by decide)

/-- C8: the image-output validator returns true exactly when the file exists,
has non-zero length, and sniffs to the expected format label; it is false for
a missing or zero-length file and false on a format mismatch.  It is a pure
query of the file bytes (no mutation, by construction of the model). -/
theorem claim_C8_validate_output_spec :
    ∀ (file : Option (List Nat)) (expected : String),
      validate_output file expected = true ↔
        ∃ bs, file = some bs ∧ 0 < bs.length ∧ detect_format (some bs) = some expected := by
  intro file expected
  cases file with
  | none => simp [validate_output]
  | some bs =>
    by_cases h : bs.length = 0
    · simp [validate_output, h]
    · simp [validate_output, h, Nat.pos_of_ne_zero h]

/-- C10: every file whose first four bytes are 1A 45 DF A3 (Matroska/WebM) is
classified "mkv" by the sniffer, rather than falling through unclassified. -/
theorem claim_C10_mkv_classified :
    ∀ r, detect_format (some (mkvMagic ++ r)) = some "mkv" := by
  intro r
  simp [detect_format, detectBytes, MAGIC_BYTES, mkvMagic, jxlContainerMagic, pngMagic,
    jpgMagic, jxlBareMagic, tiffLeMagic, tiffBeMagic, gifMagic, bmpMagic, riffMagic,
    webpBrand, webxBrand, aviBrand, pySlice, List.isPrefixOf_cons₂,
    List.cons_prefix_cons]

/-! ### transcode.py: the image transcode pipeline (lines 122-288) -/

/-- Outcome of one external process invocation: normal exit with a return
code, `subprocess.TimeoutExpired`, or `FileNotFoundError` (tool missing). -/
inductive ProcOutcome
  | exited (code : Nat)
  | timedOut
  | missing
  deriving DecidableEq

/-- One external tool invocation issued by the image pipeline.  A `magick`
call records the JXL distance it was invoked with.  Quality parameters are
carried opaquely as naturals: the code only ever passes them to tool
invocations, never computes with them. -/
inductive ToolCall
  | cjxl
  | magick (distance : Nat)
  | exiftool
  deriving DecidableEq

/-- The `TranscodeResult` dataclass (`transcode.py` lines 30-38). -/
structure TranscodeResultM where
  success : Bool
  input_path : String
  output_path : String
  input_bytes : Nat
  output_bytes : Nat
  input_format : String
  error : Option String
  deriving DecidableEq

/-- Oracle describing the external world of one image `transcode` call:
the input file content, the outcome of each potential subprocess, and the
size of the output file after a successful tool run (`none` = the tool exited
ok but produced no file, matching the `os.path.exists` guard). -/
structure TranscodeEnv where
  inputBytes : List Nat
  cjxlProc : ProcOutcome
  cjxlOutSize : Option Nat
  magickProc : ProcOutcome
  magickStderr : String
  magickOutSize : Option Nat
  exiftoolOk : Bool
  deriving DecidableEq

/-- `copy_metadata` (lines 122-142): the exiftool invocation together with its
recorded call; timeout, nonzero exit and missing tool all collapse to `false`
in the source, which is what the oracle field models. -/
def copy_metadata (env : TranscodeEnv) : Bool × List ToolCall :=
  (env.exiftoolOk, [ToolCall.exiftool])

/-- `_transcode_with_magick` (lines 145-209).  On a zero exit the metadata
copy is attempted and its failure only logs; the result is then a success
carrying the output size (0 if the file is missing).  Timeout, nonzero exit
and missing binary become failure results with the source's error strings. -/
def transcode_with_magick (env : TranscodeEnv) (input_path output_path : String)
    (distance : Nat) : TranscodeResultM × List ToolCall :=
  let input_bytes := env.inputBytes.length
  let input_format := (detect_format (some env.inputBytes)).getD "unknown"
  match env.magickProc with
  | .exited code =>
    if code = 0 then
      let md := copy_metadata env
      ({ success := true, input_path, output_path, input_bytes,
         output_bytes := env.magickOutSize.getD 0, input_format, error := none },
       ToolCall.magick distance :: md.2)
    else
      ({ success := false, input_path, output_path, input_bytes, output_bytes := 0,
         input_format, error := some ("ImageMagick failed: " ++ env.magickStderr) },
       [ToolCall.magick distance])
  | .timedOut =>
      ({ success := false, input_path, output_path, input_bytes, output_bytes := 0,
         input_format, error := some "ImageMagick timed out after 600s" },
       [ToolCall.magick distance])
  | .missing =>
      ({ success := false, input_path, output_path, input_bytes, output_bytes := 0,
         input_format, error := some "magick not found" },
       [ToolCall.magick distance])

/-- `transcode` (lines 212-288): undetectable format and already-JXL inputs
fail immediately with no tool call; JPEG inputs try cjxl first, falling back
to ImageMagick on a nonzero exit or a missing binary, while a cjxl timeout
returns a failure directly; every other format goes straight to ImageMagick
with the configured distance. -/
def transcode (env : TranscodeEnv) (input_path output_path : String) (distance : Nat) :
    TranscodeResultM × List ToolCall :=
  let input_bytes := env.inputBytes.length
  match detect_format (some env.inputBytes) with
  | none =>
    ({ success := false, input_path, output_path, input_bytes, output_bytes := 0,
       input_format := "unknown", error := some "Could not detect input format" }, [])
  | some fmt =>
    if fmt = "jxl" then
      ({ success := false, input_path, output_path, input_bytes,
         output_bytes := input_bytes, input_format := fmt,
         error := some "Already JXL" }, [])
    else if fmt = "jpg" then
      match env.cjxlProc with
      | .timedOut =>
        ({ success := false, input_path, output_path, input_bytes, output_bytes := 0,
           input_format := fmt, error := some "cjxl timed out after 600s" },
         [ToolCall.cjxl])
      | .missing =>
        let m := transcode_with_magick env input_path output_path distance
        (m.1, ToolCall.cjxl :: m.2)
      | .exited code =>
        if code = 0 then
          ({ success := true, input_path, output_path, input_bytes,
             output_bytes := env.cjxlOutSize.getD 0, input_format := fmt,
             error := none }, [ToolCall.cjxl])
        else
          let m := transcode_with_magick env input_path output_path distance
          (m.1, ToolCall.cjxl :: m.2)
    else
      transcode_with_magick env input_path output_path distance

/-- The ImageMagick converter always records its invocation with the
distance it was handed, whatever its outcome. -/
theorem magick_call_recorded (env : TranscodeEnv) (ip op : String) (d : Nat) :
    ToolCall.magick d ∈ (transcode_with_magick env ip op d).2 := by
  rcases h : env.magickProc with code | _ | _
  · by_cases hc : code = 0 <;> simp [transcode_with_magick, copy_metadata, h, hc]
  · simp [transcode_with_magick, h]
  · simp [transcode_with_magick, h]

/-- A JPEG input whose cjxl invocation times out. -/
def envCjxlTimeout : TranscodeEnv :=
  { inputBytes := jpgMagic ++ [0, 0], cjxlProc := .timedOut, cjxlOutSize := none,
    magickProc := .exited 0, magickStderr := "", magickOutSize := some 1,
    exiftoolOk := true }

/-- Counterexample to C4: on a cjxl timeout the pipeline does not fall back to
ImageMagick; it returns a failure outcome directly, with the timeout error and
no magick invocation in the call trace. -/
theorem claim_C4_counterexample :
    (transcode envCjxlTimeout "in.jpg" "out.jxl" 1).1.success = false ∧
    (transcode envCjxlTimeout "in.jpg" "out.jxl" 1).1.error =
      some "cjxl timed out after 600s" ∧
    (transcode envCjxlTimeout "in.jpg" "out.jxl" 1).2 = [ToolCall.cjxl] := by
  decide

/-- C4 (amended): for every JPEG input, cjxl is attempted first (the call
trace starts with the cjxl invocation); on a nonzero exit or a missing tool
the pipeline falls back to ImageMagick invoked with the configured distance;
on a cjxl timeout it instead returns a failure outcome directly — no magick
call — with the timeout error message. -/
theorem claim_C4_jpeg_cjxl_fallback :
    ∀ (env : TranscodeEnv) (ip op : String) (d : Nat),
      detect_format (some env.inputBytes) = some "jpg" →
      ((transcode env ip op d).2.head? = some ToolCall.cjxl) ∧
      (∀ code, env.cjxlProc = .exited code → code ≠ 0 →
        (transcode env ip op d).1 = (transcode_with_magick env ip op d).1 ∧
        ToolCall.magick d ∈ (transcode env ip op d).2) ∧
      (env.cjxlProc = .missing →
        (transcode env ip op d).1 = (transcode_with_magick env ip op d).1 ∧
        ToolCall.magick d ∈ (transcode env ip op d).2) ∧
      (env.cjxlProc = .timedOut →
        (transcode env ip op d).1.success = false ∧
        (transcode env ip op d).1.error = some "cjxl timed out after 600s" ∧
        ∀ q, ToolCall.magick q ∉ (transcode env ip op d).2) := by
  intro env ip op d hdet
  refine ⟨?_, ?_, ?_, ?_⟩
  · rcases h : env.cjxlProc with code | _ | _
    · by_cases hc : code = 0 <;> simp [transcode, hdet, h, hc]
    · simp [transcode, hdet, h]
    · simp [transcode, hdet, h]
  · intro code hc hnz
    constructor
    · simp [transcode, hdet, hc, hnz]
    · simp only [transcode, hdet, hc]
      simp [hnz, magick_call_recorded]
  · intro hc
    constructor
    · simp [transcode, hdet, hc]
    · simp [transcode, hdet, hc, magick_call_recorded]
  · intro hc
    simp [transcode, hdet, hc]

/-- Witness for the amended C4 at a concrete JPEG input with a failing cjxl. -/
theorem claim_C4_witness :
    detect_format (some (TranscodeEnv.inputBytes
      { inputBytes := jpgMagic ++ [1], cjxlProc := .exited 1, cjxlOutSize := none,
        magickProc := .exited 0, magickStderr := "", magickOutSize := some 3,
        exiftoolOk := true })) = some "jpg" ∧
    ToolCall.magick 5 ∈ (transcode
      { inputBytes := jpgMagic ++ [1], cjxlProc := .exited 1, cjxlOutSize := none,
        magickProc := .exited 0, magickStderr := "", magickOutSize := some 3,
        exiftoolOk := true } "a" "b" 5).2 :=
  ⟨by decide,
   ((claim_C4_jpeg_cjxl_fallback _ "a" "b" 5 (by decide)).2.1 1 rfl (by decide)).2⟩

/-- A JPEG input whose cjxl invocation succeeds. -/
def envCjxlOk : TranscodeEnv :=
  { inputBytes := jpgMagic ++ [7], cjxlProc := .exited 0, cjxlOutSize := some 2,
    magickProc := .exited 0, magickStderr := "", magickOutSize := some 1,
    exiftoolOk := true }

/-- Counterexample to C5: the cjxl lossless-repack success path returns a
successful result without ever attempting the metadata-copy tool call. -/
theorem claim_C5_counterexample :
    (transcode envCjxlOk "a" "b" 1).1.success = true ∧
    ToolCall.exiftool ∉ (transcode envCjxlOk "a" "b" 1).2 := by
  decide

/-- C5 (amended): the metadata-copy call is attempted after every successful
ImageMagick conversion, and its failure still yields a result with success
true; the cjxl lossless-repack success path, by contrast, performs no
metadata-copy call at all (cjxl transplants JPEG metadata itself). -/
theorem claim_C5_metadata_copy_policy :
    ∀ (env : TranscodeEnv) (ip op : String) (d : Nat),
      (env.magickProc = .exited 0 →
        (transcode_with_magick env ip op d).2 = [ToolCall.magick d, ToolCall.exiftool] ∧
        (transcode_with_magick env ip op d).1.success = true) ∧
      (∀ fmt, detect_format (some env.inputBytes) = some fmt → fmt ≠ "jxl" → fmt ≠ "jpg" →
        env.magickProc = .exited 0 →
        (transcode env ip op d).1.success = true ∧
        ToolCall.exiftool ∈ (transcode env ip op d).2) ∧
      (detect_format (some env.inputBytes) = some "jpg" → env.cjxlProc = .exited 0 →
        (transcode env ip op d).1.success = true ∧
        ToolCall.exiftool ∉ (transcode env ip op d).2) := by
  intro env ip op d
  refine ⟨?_, ?_, ?_⟩
  · intro h
    simp [transcode_with_magick, copy_metadata, h]
  · intro fmt hdet h1 h2 h
    simp [transcode, hdet, h1, h2, transcode_with_magick, copy_metadata, h]
  · intro hdet hc
    simp [transcode, hdet, hc]

/-- Witness for the amended C5: a failing exiftool call still yields success
on the ImageMagick path. -/
theorem claim_C5_witness :
    (transcode_with_magick
      { inputBytes := pngMagic ++ [1], cjxlProc := .missing, cjxlOutSize := none,
        magickProc := .exited 0, magickStderr := "", magickOutSize := some 3,
        exiftoolOk := false } "a" "b" 2).1.success = true ∧
    ToolCall.exiftool ∈ (transcode_with_magick
      { inputBytes := pngMagic ++ [1], cjxlProc := .missing, cjxlOutSize := none,
        magickProc := .exited 0, magickStderr := "", magickOutSize := some 3,
        exiftoolOk := false } "a" "b" 2).2 :=
  ⟨((claim_C5_metadata_copy_policy _ "a" "b" 2).1 rfl).2,
   by
    rw [((claim_C5_metadata_copy_policy _ "a" "b" 2).1 rfl).1]
    decide⟩

/-! ### main.py: the per-asset pipeline orchestrator (lines 22-263)

The catalog API and the transcoding subprocesses are external collaborators;
their outcomes are supplied by an oracle record, and `process_asset` returns,
next to the `result_info` fields, the ordered trace of the external calls it
issued and the set of scratch files left on disk after its `finally` block.
An unexpected exception escaping a step is modelled by an injection point
`raiseAt`; a run that escapes with an exception has `status = none` (the
scheduler in `main()` catches it and records a generic error result). -/

/-- An Immich asset as consumed by the orchestrator (`immich_api.py` 12-38). -/
structure AssetM where
  id : String
  original_file_name : List Char
  original_mime_type : Option (List Char)
  type : String
  device_asset_id : String
  device_id : String
  deriving DecidableEq

/-- Python `str.lower()` restricted to the ASCII range the code compares. -/
def pyLower (s : List Char) : List Char := s.map Char.toLower

/-- Index of the last occurrence of a character, Python `str.rfind` (as
`some i`, with `none` for the -1 "absent" result). -/
def lastIndexOf (c : Char) : List Char → Option Nat
  | [] => none
  | x :: xs =>
    match lastIndexOf c xs with
    | some i => some (i + 1)
    | none => if x = c then some 0 else none

/-- Extension part of `os.path.splitext` for a bare file name: the suffix
from the last dot, provided some character between the last path separator
and that dot is not itself a dot (so ".jxl" as a whole name has no
extension). -/
def splitextExtension (p : List Char) : List Char :=
  let sepIndex : Int := match lastIndexOf '/' p with | some i => (i : Int) | none => -1
  let dotIndex : Int := match lastIndexOf '.' p with | some i => (i : Int) | none => -1
  if sepIndex < dotIndex then
    let filenameStart := (sepIndex + 1).toNat
    let dotN := dotIndex.toNat
    if ((p.drop filenameStart).take (dotN - filenameStart)).any (fun ch => ch ≠ '.') then
      p.drop dotN
    else []
  else []

/-- `_get_target_format` (main.py 22-23). -/
def get_target_format (a : AssetM) : String :=
  if a.type == "VIDEO" then "mp4" else "jxl"

/-- `_should_skip_by_mime_type` (main.py 26-43): images already declared JXL
by MIME type, or with a `.jxl` extension when no MIME type is available. -/
def should_skip_by_mime_type (a : AssetM) : Bool :=
  if a.type ≠ "IMAGE" then false
  else
    let mime : Option (List Char) :=
      match a.original_mime_type with
      | some m => if m = [] then none else some (pyLower m)
      | none => none
    if mime = some ("image/jxl".toList) then true
    else pyLower (splitextExtension a.original_file_name) = ".jxl".toList

/-- The configuration fields `process_asset` reads.  Quality parameters are
carried opaquely as naturals: the orchestrator only passes them through to
the transcoder, it never computes with them. -/
structure ConfigM where
  dry_run : Bool
  allow_larger : Bool
  enable_retry : Bool
  accept_retry_output : Bool
  image_distance : Nat
  image_distance_retry : Nat
  video_crf : Nat
  video_crf_retry : Nat
  workdir : String
  deriving DecidableEq

/-- Scratch input path `{workdir}/in/{asset.id}.bin` (main.py 66, config.py
131-135). -/
def input_path (cfg : ConfigM) (a : AssetM) : String :=
  cfg.workdir ++ "/in/" ++ a.id ++ ".bin"

/-- Scratch output path `{workdir}/out/{asset.id}.{target_format}` (main.py
67). -/
def output_path (cfg : ConfigM) (a : AssetM) : String :=
  cfg.workdir ++ "/out/" ++ a.id ++ "." ++ get_target_format a

/-- Injection points for an unexpected exception escaping a pipeline step. -/
inductive Step
  | download
  | transcodeFirst
  | transcodeRetry
  | uploadStep
  | copyRelations
  | verifyStep
  | deleteOriginal
  deriving DecidableEq

/-- One external interaction issued by `process_asset`, in program order. -/
inductive AEvent
  | downloadCall
  | transcodeCall (isVideo : Bool) (quality : Nat)
  | uploadCall
  | copyDataCall (fromId toId : String)
  | getAssetCall (ident : String)
  | deleteCall (ids : List String)
  deriving DecidableEq

/-- The fields of a `TranscodeResult` that `process_asset` reads. -/
structure TResultView where
  success : Bool
  output_bytes : Nat
  error : Option String
  deriving DecidableEq

/-- Oracle for one `process_asset` invocation: outcomes of the download, of
the first and the retry transcode attempts and their validations, of the
upload/copy/verify/delete API calls, and which scratch files the helpers
actually created. -/
structure OracleEnv where
  raiseAt : Option Step
  downloadErr : Option String
  downloadBytes : Nat
  inputFileCreated : Bool
  dryRunCodec : Option String
  r1 : TResultView
  v1 : Bool
  outputFileCreated1 : Bool
  r2 : TResultView
  v2 : Bool
  outputFileCreated2 : Bool
  uploadId : Option String
  uploadErr : Option String
  copyOk : Bool
  verifyOk : Bool
  deleteOrigOk : Bool
  deriving DecidableEq

/-- `result_info` together with the call trace and the scratch files present
after `process_asset` returns.  `status = none` models an exception escaping
the function (to be caught at the scheduler boundary). -/
structure POut where
  status : Option String
  input_bytes : Nat
  output_bytes : Nat
  events : List AEvent
  filesAfter : List String
  deriving DecidableEq

/-- The `finally` block (main.py 257-263): both scratch paths are removed
from the set of existing files, whatever else is there. -/
def scrub (inP outP : String) (files : List String) : List String :=
  files.filter (fun p => !(p == inP || p == outP))

/-- Python `result.error and result.error.startswith("Already ")`. -/
def errorIsAlready : Option String → Bool
  | some s => s.startsWith "Already "
  | none => false

/-- Steps 1-4 of the replace protocol (main.py 200-255): upload, relation
copy with compensating delete, verification with compensating delete, then
the delete of the original asset whose failure yields partial success. -/
def replacePhase (cfg : ConfigM) (asset : AssetM) (env : OracleEnv)
    (input_bytes output_bytes : Nat) (ev : List AEvent) (fs : List String)
    (inP outP : String) : POut :=
  if env.raiseAt = some Step.uploadStep then
    { status := none, input_bytes, output_bytes, events := ev,
      filesAfter := scrub inP outP fs }
  else
    let ev := ev ++ [AEvent.uploadCall]
    if env.uploadErr.isSome ∨ env.uploadId.getD "" = "" then
      { status := some "failed_upload", input_bytes, output_bytes, events := ev,
        filesAfter := scrub inP outP fs }
    else
      let newId := env.uploadId.getD ""
      if env.raiseAt = some Step.copyRelations then
        { status := none, input_bytes, output_bytes, events := ev,
          filesAfter := scrub inP outP fs }
      else
        let ev := ev ++ [AEvent.copyDataCall asset.id newId]
        if env.copyOk = false then
          { status := some "failed_copy", input_bytes, output_bytes,
            events := ev ++ [AEvent.deleteCall [newId]],
            filesAfter := scrub inP outP fs }
        else if env.raiseAt = some Step.verifyStep then
          { status := none, input_bytes, output_bytes, events := ev,
            filesAfter := scrub inP outP fs }
        else
          let ev := ev ++ [AEvent.getAssetCall newId]
          if env.verifyOk = false then
            { status := some "failed_verification", input_bytes, output_bytes,
              events := ev ++ [AEvent.deleteCall [newId]],
              filesAfter := scrub inP outP fs }
          else if env.raiseAt = some Step.deleteOriginal then
            { status := none, input_bytes, output_bytes, events := ev,
              filesAfter := scrub inP outP fs }
          else
            let ev := ev ++ [AEvent.deleteCall [asset.id]]
            if env.deleteOrigOk = false then
              { status := some "partial_success", input_bytes, output_bytes,
                events := ev, filesAfter := scrub inP outP fs }
            else
              { status := some "success", input_bytes, output_bytes, events := ev,
                filesAfter := scrub inP outP fs }

/-- The size gate and quality-retry policy (main.py 138-198), entered after a
successful, validated transcode; accepted outcomes continue into the replace
protocol. -/
def qualityPhase (cfg : ConfigM) (asset : AssetM) (env : OracleEnv)
    (is_video : Bool) (input_bytes : Nat) (ev1 : List AEvent) (fs1 : List String)
    (inP outP : String) : POut :=
  if env.r1.output_bytes > input_bytes then
    if cfg.allow_larger then
      replacePhase cfg asset env input_bytes env.r1.output_bytes ev1 fs1 inP outP
    else if cfg.enable_retry then
      if env.raiseAt = some Step.transcodeRetry then
        { status := none, input_bytes, output_bytes := env.r1.output_bytes,
          events := ev1, filesAfter := scrub inP outP fs1 }
      else
        let q2 := if is_video then cfg.video_crf_retry else cfg.image_distance_retry
        let ev2 := ev1 ++ [AEvent.transcodeCall is_video q2]
        let fs2 := fs1 ++ (if env.outputFileCreated2 then [outP] else [])
        if env.r2.success = false ∨ env.v2 = false then
          { status := some "skipped", input_bytes,
            output_bytes := env.r1.output_bytes, events := ev2,
            filesAfter := scrub inP outP fs2 }
        else if env.r2.output_bytes > input_bytes ∧ cfg.accept_retry_output = false then
          { status := some "skipped", input_bytes,
            output_bytes := env.r2.output_bytes, events := ev2,
            filesAfter := scrub inP outP fs2 }
        else
          replacePhase cfg asset env input_bytes env.r2.output_bytes ev2 fs2 inP outP
    else
      { status := some "skipped", input_bytes, output_bytes := env.r1.output_bytes,
        events := ev1, filesAfter := scrub inP outP fs1 }
  else
    replacePhase cfg asset env input_bytes env.r1.output_bytes ev1 fs1 inP outP

/-- The part of `process_asset` following a successful download (main.py
89-198 up to the quality gate): video dry-run reporting, injected-exception
point, first transcode and validation, then the quality phase. -/
def afterDownload (cfg : ConfigM) (asset : AssetM) (env : OracleEnv)
    (is_video : Bool) (ev0 : List AEvent) (fs0 : List String)
    (inP outP : String) : POut :=
  let input_bytes := env.downloadBytes
  if cfg.dry_run && is_video then
    if env.dryRunCodec = some "av1" then
      { status := some "skipped", input_bytes, output_bytes := 0,
        events := ev0, filesAfter := scrub inP outP fs0 }
    else
      { status := some "dry_run_skip", input_bytes, output_bytes := 0,
        events := ev0, filesAfter := scrub inP outP fs0 }
  else if env.raiseAt = some Step.transcodeFirst then
    { status := none, input_bytes, output_bytes := 0, events := ev0,
      filesAfter := scrub inP outP fs0 }
  else
    let q1 := if is_video then cfg.video_crf else cfg.image_distance
    let ev1 := ev0 ++ [AEvent.transcodeCall is_video q1]
    let fs1 := fs0 ++ (if env.outputFileCreated1 then [outP] else [])
    if env.r1.success = false then
      if errorIsAlready env.r1.error then
        { status := some "skipped", input_bytes, output_bytes := 0,
          events := ev1, filesAfter := scrub inP outP fs1 }
      else
        { status := some "failed_transcode", input_bytes, output_bytes := 0,
          events := ev1, filesAfter := scrub inP outP fs1 }
    else if env.v1 = false then
      { status := some "failed_transcode", input_bytes, output_bytes := 0,
        events := ev1, filesAfter := scrub inP outP fs1 }
    else
      qualityPhase cfg asset env is_video input_bytes ev1 fs1 inP outP

/-- `process_asset` (main.py 46-263): pre-filter, dry-run handling, download,
transcode + validate, quality retry, replace protocol, with the `finally`
cleanup applied on every exit path (including injected exceptions). -/
def process_asset (cfg : ConfigM) (asset : AssetM) (env : OracleEnv) : POut :=
  let is_video : Bool := asset.type == "VIDEO"
  if !is_video && should_skip_by_mime_type asset then
    { status := some "skipped", input_bytes := 0, output_bytes := 0, events := [],
      filesAfter := [] }
  else
    let inP := input_path cfg asset
    let outP := output_path cfg asset
    if cfg.dry_run && !is_video then
      { status := some "dry_run_skip", input_bytes := 0, output_bytes := 0,
        events := [], filesAfter := scrub inP outP [] }
    else if env.raiseAt = some Step.download then
      { status := none, input_bytes := 0, output_bytes := 0, events := [],
        filesAfter := scrub inP outP [] }
    else
      let ev0 := [AEvent.downloadCall]
      let fs0 : List String := if env.inputFileCreated then [inP] else []
      match env.downloadErr with
      | some _ =>
        { status := some "failed_download", input_bytes := 0, output_bytes := 0,
          events := ev0, filesAfter := scrub inP outP fs0 }
      | none =>
        afterDownload cfg asset env is_video ev0 fs0 inP outP

/-! ### Cleanup lemmas for claim C6 -/

theorem scrub_not_mem (inP outP p : String) (fs : List String)
    (h : p = inP ∨ p = outP) : p ∉ scrub inP outP fs := by
  intro hmem
  rw [scrub, List.mem_filter] at hmem
  rcases h with h | h <;> subst h <;> simp at hmem

theorem replacePhase_filesAfter (cfg : ConfigM) (asset : AssetM) (env : OracleEnv)
    (ib ob : Nat) (ev : List AEvent) (fs : List String) (inP outP : String) :
    (replacePhase cfg asset env ib ob ev fs inP outP).filesAfter = scrub inP outP fs := by
  unfold replacePhase
  split_ifs <;> rfl

theorem qualityPhase_filesAfter (cfg : ConfigM) (asset : AssetM) (env : OracleEnv)
    (v : Bool) (ib : Nat) (ev1 : List AEvent) (fs1 : List String) (inP outP : String) :
    ∃ g, (qualityPhase cfg asset env v ib ev1 fs1 inP outP).filesAfter =
      scrub inP outP g := by
  unfold qualityPhase
  split_ifs <;> first
    | exact ⟨_, replacePhase_filesAfter _ _ _ _ _ _ _ _ _⟩
    | exact ⟨_, rfl⟩

theorem afterDownload_filesAfter (cfg : ConfigM) (asset : AssetM) (env : OracleEnv)
    (v : Bool) (ev0 : List AEvent) (fs0 : List String) (inP outP : String) :
    ∃ g, (afterDownload cfg asset env v ev0 fs0 inP outP).filesAfter =
      scrub inP outP g := by
  unfold afterDownload
  split_ifs <;> first
    | exact ⟨_, qualityPhase_filesAfter _ _ _ _ _ _ _ _ _ |>.choose_spec⟩
    | exact ⟨_, rfl⟩

theorem process_asset_filesAfter (cfg : ConfigM) (asset : AssetM) (env : OracleEnv) :
    (process_asset cfg asset env).filesAfter = [] ∨
    ∃ g, (process_asset cfg asset env).filesAfter =
      scrub (input_path cfg asset) (output_path cfg asset) g := by
  simp only [process_asset]
  repeat' split
  all_goals
    first
      | (left; rfl)
      | (right; exact afterDownload_filesAfter _ _ _ _ _ _ _ _)
      | (right; exact ⟨_, rfl⟩)

/-! ### Replace-protocol lemmas for claims C1 and C7 -/

/-- What must have happened whenever the original asset's id was passed to a
delete call: upload succeeded (an id came back, no error), the relation copy
and the verification succeeded, and the upload, copy and get calls all
precede the delete in the trace. -/
def deleteGateConclusion (asset : AssetM) (env : OracleEnv) (evs : List AEvent) : Prop :=
  env.uploadErr = none ∧ env.copyOk = true ∧ env.verifyOk = true ∧
  ∃ pre, evs = pre ++ [AEvent.deleteCall [asset.id]] ∧
    AEvent.uploadCall ∈ pre ∧
    AEvent.copyDataCall asset.id (env.uploadId.getD "") ∈ pre ∧
    AEvent.getAssetCall (env.uploadId.getD "") ∈ pre

theorem replacePhase_delete_gate (cfg : ConfigM) (asset : AssetM) (env : OracleEnv)
    (ib ob : Nat) (ev : List AEvent) (fs : List String) (inP outP : String)
    (hid : env.uploadId ≠ some asset.id)
    (hev : ∀ ids, AEvent.deleteCall ids ∉ ev) :
    AEvent.deleteCall [asset.id] ∈ (replacePhase cfg asset env ib ob ev fs inP outP).events →
      deleteGateConclusion asset env
        (replacePhase cfg asset env ib ob ev fs inP outP).events := by
  intro hmem
  have hkey : env.uploadId.getD "" = "" ∨ env.uploadId.getD "" ≠ asset.id := by
    rcases hu : env.uploadId with _ | s
    · exact Or.inl rfl
    · by_cases hs : s = asset.id
      · exact absurd (by rw [hu, hs]) hid
      · right
        simpa [hu] using hs
  by_cases h1 : env.raiseAt = some Step.uploadStep
  · simp [replacePhase, h1, hev _] at hmem
  by_cases h2 : env.uploadErr.isSome ∨ env.uploadId.getD "" = ""
  · simp [replacePhase, h1, h2, hev _] at hmem
  by_cases h3 : env.raiseAt = some Step.copyRelations
  · simp [replacePhase, h1, h2, h3, hev _] at hmem
  by_cases h4 : env.copyOk = false
  · simp [replacePhase, h1, h2, h3, h4, hev _] at hmem
    rcases hkey with hk | hk
    · exact absurd (Or.inr hk) h2
    · exact absurd hmem.symm hk
  by_cases h5 : env.raiseAt = some Step.verifyStep
  · simp [replacePhase, h1, h2, h3, h4, h5, hev _] at hmem
  by_cases h6 : env.verifyOk = false
  · simp [replacePhase, h1, h2, h3, h4, h5, h6, hev _] at hmem
    rcases hkey with hk | hk
    · exact absurd (Or.inr hk) h2
    · exact absurd hmem.symm hk
  by_cases h7 : env.raiseAt = some Step.deleteOriginal
  · simp [replacePhase, h1, h2, h3, h4, h5, h6, h7, hev _] at hmem
  have h2a : ¬ env.uploadErr.isSome = true := fun hs => h2 (Or.inl hs)
  refine ⟨Option.not_isSome_iff_eq_none.mp h2a, by simpa using h4,
    by simpa using h6, ?_⟩
  by_cases h8 : env.deleteOrigOk = false
  · refine ⟨((ev ++ [AEvent.uploadCall]) ++
      [AEvent.copyDataCall asset.id (env.uploadId.getD "")]) ++
      [AEvent.getAssetCall (env.uploadId.getD "")], ?_, by simp, by simp, by simp⟩
    simp [replacePhase, h1, h2, h3, h4, h5, h6, h7, h8]
  · refine ⟨((ev ++ [AEvent.uploadCall]) ++
      [AEvent.copyDataCall asset.id (env.uploadId.getD "")]) ++
      [AEvent.getAssetCall (env.uploadId.getD "")], ?_, by simp, by simp, by simp⟩
    simp [replacePhase, h1, h2, h3, h4, h5, h6, h7, h8]

theorem qualityPhase_delete_gate (cfg : ConfigM) (asset : AssetM) (env : OracleEnv)
    (v : Bool) (ib : Nat) (ev1 : List AEvent) (fs1 : List String) (inP outP : String)
    (hid : env.uploadId ≠ some asset.id)
    (hev : ∀ ids, AEvent.deleteCall ids ∉ ev1) :
    AEvent.deleteCall [asset.id] ∈ (qualityPhase cfg asset env v ib ev1 fs1 inP outP).events →
      deleteGateConclusion asset env
        (qualityPhase cfg asset env v ib ev1 fs1 inP outP).events := by
  intro hmem
  have hev2 : ∀ (q : Nat) ids, AEvent.deleteCall ids ∉ ev1 ++ [AEvent.transcodeCall v q] := by
    intro q ids hm
    rcases List.mem_append.mp hm with h | h
    · exact hev _ h
    · simp at h
  by_cases hL : env.r1.output_bytes > ib
  · by_cases hA : cfg.allow_larger = true
    · simp only [qualityPhase, hL, hA] at hmem ⊢
      simp only [if_true, if_pos trivial] at hmem ⊢
      exact replacePhase_delete_gate _ _ _ _ _ _ _ _ _ hid hev hmem
    · by_cases hR : cfg.enable_retry = true
      · by_cases hX : env.raiseAt = some Step.transcodeRetry
        · simp [qualityPhase, hL, hA, hR, hX, hev _] at hmem
        · by_cases hF : env.r2.success = false ∨ env.v2 = false
          · simp [qualityPhase, hL, hA, hR, hX, hF, hev _] at hmem
          · by_cases hB : env.r2.output_bytes > ib ∧ cfg.accept_retry_output = false
            · simp [qualityPhase, hL, hA, hR, hX, hF, hB, hev _] at hmem
            · simp only [qualityPhase] at hmem ⊢
              rw [if_pos hL, if_neg hA, if_pos hR, if_neg hX, if_neg hF, if_neg hB]
                at hmem ⊢
              exact replacePhase_delete_gate _ _ _ _ _ _ _ _ _ hid (hev2 _) hmem
      · simp [qualityPhase, hL, hA, hR, hev _] at hmem
  · simp only [qualityPhase] at hmem ⊢
    rw [if_neg hL] at hmem ⊢
    exact replacePhase_delete_gate _ _ _ _ _ _ _ _ _ hid hev hmem

theorem afterDownload_delete_gate (cfg : ConfigM) (asset : AssetM) (env : OracleEnv)
    (v : Bool) (ev0 : List AEvent) (fs0 : List String) (inP outP : String)
    (hid : env.uploadId ≠ some asset.id)
    (hev : ∀ ids, AEvent.deleteCall ids ∉ ev0) :
    AEvent.deleteCall [asset.id] ∈ (afterDownload cfg asset env v ev0 fs0 inP outP).events →
      deleteGateConclusion asset env
        (afterDownload cfg asset env v ev0 fs0 inP outP).events := by
  intro hmem
  have hev1 : ∀ (q : Nat) ids, AEvent.deleteCall ids ∉ ev0 ++ [AEvent.transcodeCall v q] := by
    intro q ids hm
    rcases List.mem_append.mp hm with h | h
    · exact hev _ h
    · simp at h
  by_cases hD : (cfg.dry_run && v) = true
  · by_cases hC : env.dryRunCodec = some "av1"
    · simp [afterDownload, hD, hC, hev _] at hmem
    · simp [afterDownload, hD, hC, hev _] at hmem
  · by_cases hX : env.raiseAt = some Step.transcodeFirst
    · simp [afterDownload, hD, hX, hev _] at hmem
    · by_cases hS : env.r1.success = false
      · by_cases hE : errorIsAlready env.r1.error = true
        · simp [afterDownload, hD, hX, hS, hE, hev _] at hmem
        · simp [afterDownload, hD, hX, hS, hE, hev _] at hmem
      · by_cases hV : env.v1 = false
        · simp [afterDownload, hD, hX, hS, hV, hev _] at hmem
        · simp only [afterDownload] at hmem ⊢
          rw [if_neg (by simpa using hD), if_neg hX, if_neg (by simpa using hS),
            if_neg (by simpa using hV)] at hmem ⊢
          exact qualityPhase_delete_gate _ _ _ _ _ _ _ _ _ hid (hev1 _) hmem

/-- C1: for every configuration, asset and environment (with the fresh id
returned by the upload differing from the original asset id), whenever the
original asset id is passed to a delete call by the per-asset pipeline, the
upload must have succeeded, the relation copy and the verification must have
succeeded, and the upload, copy and get calls all precede that delete in the
call trace; on any earlier failure the original id never reaches a delete
call. -/
theorem claim_C1_delete_only_after_upload_copy_verify
    (cfg : ConfigM) (asset : AssetM) (env : OracleEnv)
    (hid : env.uploadId ≠ some asset.id) :
    AEvent.deleteCall [asset.id] ∈ (process_asset cfg asset env).events →
      deleteGateConclusion asset env (process_asset cfg asset env).events := by
  intro hmem
  by_cases hP : (!(asset.type == "VIDEO") && should_skip_by_mime_type asset) = true
  · simp [process_asset, hP] at hmem
  · by_cases hDry : (cfg.dry_run && !(asset.type == "VIDEO")) = true
    · simp [process_asset, hP, hDry] at hmem
    · by_cases hX : env.raiseAt = some Step.download
      · simp [process_asset, hP, hDry, hX] at hmem
      · rcases hd : env.downloadErr with _ | e
        · simp only [process_asset] at hmem ⊢
          rw [if_neg (by simpa using hP), if_neg (by simpa using hDry), if_neg hX, hd]
            at hmem ⊢
          exact afterDownload_delete_gate _ _ _ _ _ _ _ _ hid (by simp) hmem
        · simp [process_asset, hP, hDry, hX, hd] at hmem

/-- Witness for C1 at a concrete successful run: the original id is deleted
and the gate conclusion holds. -/
theorem claim_C1_witness :
    deleteGateConclusion
      { id := "orig", original_file_name := ['a'], original_mime_type := none,
        type := "IMAGE", device_asset_id := "d", device_id := "dev" }
      { raiseAt := none, downloadErr := none, downloadBytes := 10,
        inputFileCreated := true, dryRunCodec := none,
        r1 := { success := true, output_bytes := 5, error := none }, v1 := true,
        outputFileCreated1 := true,
        r2 := { success := true, output_bytes := 5, error := none }, v2 := true,
        outputFileCreated2 := false, uploadId := some "new", uploadErr := none,
        copyOk := true, verifyOk := true, deleteOrigOk := true }
      (process_asset
        { dry_run := false, allow_larger := false, enable_retry := true,
          accept_retry_output := false, image_distance := 1, image_distance_retry := 2,
          video_crf := 36, video_crf_retry := 40, workdir := "/work" }
        { id := "orig", original_file_name := ['a'], original_mime_type := none,
          type := "IMAGE", device_asset_id := "d", device_id := "dev" }
        { raiseAt := none, downloadErr := none, downloadBytes := 10,
          inputFileCreated := true, dryRunCodec := none,
          r1 := { success := true, output_bytes := 5, error := none }, v1 := true,
          outputFileCreated1 := true,
          r2 := { success := true, output_bytes := 5, error := none }, v2 := true,
          outputFileCreated2 := false, uploadId := some "new", uploadErr := none,
          copyOk := true, verifyOk := true, deleteOrigOk := true }).events :=
  claim_C1_delete_only_after_upload_copy_verify _ _ _ (by decide) (by decide)

theorem replacePhase_partial_success (cfg : ConfigM) (asset : AssetM) (env : OracleEnv)
    (ib ob : Nat) (ev : List AEvent) (fs : List String) (inP outP : String)
    (hid : env.uploadId ≠ some asset.id)
    (hev : ∀ ids, AEvent.deleteCall ids ∉ ev)
    (hfail : env.deleteOrigOk = false)
    (hdel : AEvent.deleteCall [asset.id] ∈
      (replacePhase cfg asset env ib ob ev fs inP outP).events) :
    (replacePhase cfg asset env ib ob ev fs inP outP).status = some "partial_success" ∧
    ∀ ids, AEvent.deleteCall ids ∈ (replacePhase cfg asset env ib ob ev fs inP outP).events →
      ids = [asset.id] := by
  have hkey : env.uploadId.getD "" = "" ∨ env.uploadId.getD "" ≠ asset.id := by
    rcases hu : env.uploadId with _ | s
    · exact Or.inl rfl
    · by_cases hs : s = asset.id
      · exact absurd (by rw [hu, hs]) hid
      · right
        simpa [hu] using hs
  by_cases h1 : env.raiseAt = some Step.uploadStep
  · simp [replacePhase, h1, hev _] at hdel
  by_cases h2 : env.uploadErr.isSome ∨ env.uploadId.getD "" = ""
  · simp [replacePhase, h1, h2, hev _] at hdel
  by_cases h3 : env.raiseAt = some Step.copyRelations
  · simp [replacePhase, h1, h2, h3, hev _] at hdel
  by_cases h4 : env.copyOk = false
  · simp [replacePhase, h1, h2, h3, h4, hev _] at hdel
    rcases hkey with hk | hk
    · exact absurd (Or.inr hk) h2
    · exact absurd hdel.symm hk
  by_cases h5 : env.raiseAt = some Step.verifyStep
  · simp [replacePhase, h1, h2, h3, h4, h5, hev _] at hdel
  by_cases h6 : env.verifyOk = false
  · simp [replacePhase, h1, h2, h3, h4, h5, h6, hev _] at hdel
    rcases hkey with hk | hk
    · exact absurd (Or.inr hk) h2
    · exact absurd hdel.symm hk
  by_cases h7 : env.raiseAt = some Step.deleteOriginal
  · simp [replacePhase, h1, h2, h3, h4, h5, h6, h7, hev _] at hdel
  constructor
  · simp [replacePhase, h1, h2, h3, h4, h5, h6, h7, hfail]
  · intro ids hm
    simp [replacePhase, h1, h2, h3, h4, h5, h6, h7, hfail, hev _] at hm
    exact hm

theorem qualityPhase_partial_success (cfg : ConfigM) (asset : AssetM) (env : OracleEnv)
    (v : Bool) (ib : Nat) (ev1 : List AEvent) (fs1 : List String) (inP outP : String)
    (hid : env.uploadId ≠ some asset.id)
    (hev : ∀ ids, AEvent.deleteCall ids ∉ ev1)
    (hfail : env.deleteOrigOk = false)
    (hdel : AEvent.deleteCall [asset.id] ∈
      (qualityPhase cfg asset env v ib ev1 fs1 inP outP).events) :
    (qualityPhase cfg asset env v ib ev1 fs1 inP outP).status = some "partial_success" ∧
    ∀ ids, AEvent.deleteCall ids ∈ (qualityPhase cfg asset env v ib ev1 fs1 inP outP).events →
      ids = [asset.id] := by
  have hev2 : ∀ (q : Nat) ids, AEvent.deleteCall ids ∉ ev1 ++ [AEvent.transcodeCall v q] := by
    intro q ids hm
    rcases List.mem_append.mp hm with h | h
    · exact hev _ h
    · simp at h
  by_cases hL : env.r1.output_bytes > ib
  · by_cases hA : cfg.allow_larger = true
    · simp only [qualityPhase, hL, hA] at hdel ⊢
      simp only [if_true, if_pos trivial] at hdel ⊢
      exact replacePhase_partial_success _ _ _ _ _ _ _ _ _ hid hev hfail hdel
    · by_cases hR : cfg.enable_retry = true
      · by_cases hX : env.raiseAt = some Step.transcodeRetry
        · simp [qualityPhase, hL, hA, hR, hX, hev _] at hdel
        · by_cases hF : env.r2.success = false ∨ env.v2 = false
          · simp [qualityPhase, hL, hA, hR, hX, hF, hev _] at hdel
          · by_cases hB : env.r2.output_bytes > ib ∧ cfg.accept_retry_output = false
            · simp [qualityPhase, hL, hA, hR, hX, hF, hB, hev _] at hdel
            · simp only [qualityPhase] at hdel ⊢
              rw [if_pos hL, if_neg hA, if_pos hR, if_neg hX, if_neg hF, if_neg hB]
                at hdel ⊢
              exact replacePhase_partial_success _ _ _ _ _ _ _ _ _ hid (hev2 _) hfail hdel
      · simp [qualityPhase, hL, hA, hR, hev _] at hdel
  · simp only [qualityPhase] at hdel ⊢
    rw [if_neg hL] at hdel ⊢
    exact replacePhase_partial_success _ _ _ _ _ _ _ _ _ hid hev hfail hdel

theorem afterDownload_partial_success (cfg : ConfigM) (asset : AssetM) (env : OracleEnv)
    (v : Bool) (ev0 : List AEvent) (fs0 : List String) (inP outP : String)
    (hid : env.uploadId ≠ some asset.id)
    (hev : ∀ ids, AEvent.deleteCall ids ∉ ev0)
    (hfail : env.deleteOrigOk = false)
    (hdel : AEvent.deleteCall [asset.id] ∈
      (afterDownload cfg asset env v ev0 fs0 inP outP).events) :
    (afterDownload cfg asset env v ev0 fs0 inP outP).status = some "partial_success" ∧
    ∀ ids, AEvent.deleteCall ids ∈ (afterDownload cfg asset env v ev0 fs0 inP outP).events →
      ids = [asset.id] := by
  have hev1 : ∀ (q : Nat) ids, AEvent.deleteCall ids ∉ ev0 ++ [AEvent.transcodeCall v q] := by
    intro q ids hm
    rcases List.mem_append.mp hm with h | h
    · exact hev _ h
    · simp at h
  by_cases hD : (cfg.dry_run && v) = true
  · by_cases hC : env.dryRunCodec = some "av1"
    · simp [afterDownload, hD, hC, hev _] at hdel
    · simp [afterDownload, hD, hC, hev _] at hdel
  · by_cases hX : env.raiseAt = some Step.transcodeFirst
    · simp [afterDownload, hD, hX, hev _] at hdel
    · by_cases hS : env.r1.success = false
      · by_cases hE : errorIsAlready env.r1.error = true
        · simp [afterDownload, hD, hX, hS, hE, hev _] at hdel
        · simp [afterDownload, hD, hX, hS, hE, hev _] at hdel
      · by_cases hV : env.v1 = false
        · simp [afterDownload, hD, hX, hS, hV, hev _] at hdel
        · simp only [afterDownload] at hdel ⊢
          rw [if_neg (by simpa using hD), if_neg hX, if_neg (by simpa using hS),
            if_neg (by simpa using hV)] at hdel ⊢
          exact qualityPhase_partial_success _ _ _ _ _ _ _ _ _ hid (hev1 _) hfail hdel

/-- C7: when the pipeline reaches the delete of the original asset (which by
C1 requires upload, relation copy and verification to have succeeded) and
that delete fails, the terminal status is the distinct "partial_success" —
not a failure status — and every delete call issued by the pipeline targets
only the original asset id, so no delete is ever issued for the new asset:
both assets coexist. -/
theorem claim_C7_partial_success (cfg : ConfigM) (asset : AssetM) (env : OracleEnv)
    (hid : env.uploadId ≠ some asset.id)
    (hdel : AEvent.deleteCall [asset.id] ∈ (process_asset cfg asset env).events)
    (hfail : env.deleteOrigOk = false) :
    (process_asset cfg asset env).status = some "partial_success" ∧
    ∀ ids, AEvent.deleteCall ids ∈ (process_asset cfg asset env).events →
      ids = [asset.id] := by
  by_cases hP : (!(asset.type == "VIDEO") && should_skip_by_mime_type asset) = true
  · simp [process_asset, hP] at hdel
  · by_cases hDry : (cfg.dry_run && !(asset.type == "VIDEO")) = true
    · simp [process_asset, hP, hDry] at hdel
    · by_cases hX : env.raiseAt = some Step.download
      · simp [process_asset, hP, hDry, hX] at hdel
      · rcases hd : env.downloadErr with _ | e
        · simp only [process_asset] at hdel ⊢
          rw [if_neg (by simpa using hP), if_neg (by simpa using hDry), if_neg hX, hd]
            at hdel ⊢
          exact afterDownload_partial_success _ _ _ _ _ _ _ _ hid (by simp) hfail hdel
        · simp [process_asset, hP, hDry, hX, hd] at hdel

/-- Witness for C7 at a concrete run whose final delete fails. -/
theorem claim_C7_witness :
    (process_asset
      { dry_run := false, allow_larger := false, enable_retry := true,
        accept_retry_output := false, image_distance := 1, image_distance_retry := 2,
        video_crf := 36, video_crf_retry := 40, workdir := "/work" }
      { id := "orig", original_file_name := ['a'], original_mime_type := none,
        type := "IMAGE", device_asset_id := "d", device_id := "dev" }
      { raiseAt := none, downloadErr := none, downloadBytes := 10,
        inputFileCreated := true, dryRunCodec := none,
        r1 := { success := true, output_bytes := 5, error := none }, v1 := true,
        outputFileCreated1 := true,
        r2 := { success := true, output_bytes := 5, error := none }, v2 := true,
        outputFileCreated2 := false, uploadId := some "new", uploadErr := none,
        copyOk := true, verifyOk := true, deleteOrigOk := false }).status =
      some "partial_success" :=
  (claim_C7_partial_success _ _ _ (by decide) (by decide) rfl).1

/-! ### Quality-retry lemmas for claim C2 -/

/-- The transcode attempts recorded in a call trace: media kind and quality
parameter of each attempt, in order. -/
def transcodeTrace (evs : List AEvent) : List (Bool × Nat) :=
  evs.filterMap (fun e => match e with
    | AEvent.transcodeCall v q => some (v, q)
    | _ => none)

/-- Conditions under which a run reaches the size gate with a successful,
validated first transcode: the pre-filter does not fire, dry-run is off, no
exception is injected, the download succeeds, and the first transcode result
is a validated success. -/
def reachesSizeGate (cfg : ConfigM) (asset : AssetM) (env : OracleEnv) : Prop :=
  ((asset.type == "VIDEO") = true ∨ should_skip_by_mime_type asset = false) ∧
  cfg.dry_run = false ∧ env.raiseAt = none ∧ env.downloadErr = none ∧
  env.r1.success = true ∧ env.v1 = true

theorem replacePhase_upload_mem (cfg : ConfigM) (asset : AssetM) (env : OracleEnv)
    (ib ob : Nat) (ev : List AEvent) (fs : List String) (inP outP : String)
    (hraise : env.raiseAt = none) :
    AEvent.uploadCall ∈ (replacePhase cfg asset env ib ob ev fs inP outP).events := by
  simp only [replacePhase, hraise]
  split_ifs <;> simp_all

theorem replacePhase_transcodeTrace (cfg : ConfigM) (asset : AssetM) (env : OracleEnv)
    (ib ob : Nat) (ev : List AEvent) (fs : List String) (inP outP : String) :
    transcodeTrace (replacePhase cfg asset env ib ob ev fs inP outP).events =
      transcodeTrace ev := by
  simp only [replacePhase]
  split_ifs <;> simp [transcodeTrace]

theorem process_asset_sizeGate (cfg : ConfigM) (asset : AssetM) (env : OracleEnv)
    (hreach : reachesSizeGate cfg asset env) :
    process_asset cfg asset env =
      qualityPhase cfg asset env (asset.type == "VIDEO") env.downloadBytes
        [AEvent.downloadCall,
          AEvent.transcodeCall (asset.type == "VIDEO")
            (if (asset.type == "VIDEO") then cfg.video_crf else cfg.image_distance)]
        ((if env.inputFileCreated then [input_path cfg asset] else []) ++
          (if env.outputFileCreated1 then [output_path cfg asset] else []))
        (input_path cfg asset) (output_path cfg asset) := by
  obtain ⟨hpre, hdry, hraise, hdl, hs, hv⟩ := hreach
  rcases hpre with hp | hp <;>
    simp [process_asset, afterDownload, hp, hdry, hraise, hdl, hs, hv]

/-- C2: the quality-retry decision after a successful validated transcode
whose output is larger than the downloaded input.  With allow-larger unset
and retry disabled the run skips with exactly one recorded transcode attempt;
with allow-larger set the result is accepted (the replace protocol's upload
runs) with no second attempt; with retry enabled exactly one re-transcode
with the degraded quality parameter runs, after which the result is accepted
when no longer larger, accepted when still larger only if accept-retry-output
is set, skipped when still larger otherwise, and skipped whenever the retry
fails or does not validate. -/
theorem claim_C2_quality_retry_policy (cfg : ConfigM) (asset : AssetM) (env : OracleEnv)
    (hreach : reachesSizeGate cfg asset env)
    (hLarger : env.downloadBytes < env.r1.output_bytes) :
    (cfg.allow_larger = false → cfg.enable_retry = false →
      (process_asset cfg asset env).status = some "skipped" ∧
      transcodeTrace (process_asset cfg asset env).events =
        [((asset.type == "VIDEO"),
          if (asset.type == "VIDEO") then cfg.video_crf else cfg.image_distance)]) ∧
    (cfg.allow_larger = true →
      AEvent.uploadCall ∈ (process_asset cfg asset env).events ∧
      transcodeTrace (process_asset cfg asset env).events =
        [((asset.type == "VIDEO"),
          if (asset.type == "VIDEO") then cfg.video_crf else cfg.image_distance)]) ∧
    (cfg.allow_larger = false → cfg.enable_retry = true →
      transcodeTrace (process_asset cfg asset env).events =
        [((asset.type == "VIDEO"),
          if (asset.type == "VIDEO") then cfg.video_crf else cfg.image_distance),
         ((asset.type == "VIDEO"),
          if (asset.type == "VIDEO") then cfg.video_crf_retry
          else cfg.image_distance_retry)] ∧
      ((env.r2.success = false ∨ env.v2 = false) →
        (process_asset cfg asset env).status = some "skipped") ∧
      (env.r2.success = true → env.v2 = true →
        env.r2.output_bytes ≤ env.downloadBytes →
        AEvent.uploadCall ∈ (process_asset cfg asset env).events) ∧
      (env.r2.success = true → env.v2 = true →
        env.downloadBytes < env.r2.output_bytes → cfg.accept_retry_output = true →
        AEvent.uploadCall ∈ (process_asset cfg asset env).events) ∧
      (env.r2.success = true → env.v2 = true →
        env.downloadBytes < env.r2.output_bytes → cfg.accept_retry_output = false →
        (process_asset cfg asset env).status = some "skipped")) := by
  have hraise : env.raiseAt = none := hreach.2.2.1
  have hkey := process_asset_sizeGate cfg asset env hreach
  rw [hkey]
  refine ⟨?_, ?_, ?_⟩
  · intro hA hR
    constructor
    · simp [qualityPhase, hLarger, hA, hR]
    · simp [qualityPhase, hLarger, hA, hR, transcodeTrace]
  · intro hA
    constructor
    · simp only [qualityPhase]
      rw [if_pos hLarger, if_pos hA]
      exact replacePhase_upload_mem _ _ _ _ _ _ _ _ _ hraise
    · simp only [qualityPhase]
      rw [if_pos hLarger, if_pos hA, replacePhase_transcodeTrace]
      simp [transcodeTrace]
  · intro hA hR
    have hX : ¬ env.raiseAt = some Step.transcodeRetry := by simp [hraise]
    refine ⟨?_, ?_, ?_, ?_, ?_⟩
    · by_cases hF : env.r2.success = false ∨ env.v2 = false
      · simp [qualityPhase, hLarger, hA, hR, hX, hF, transcodeTrace]
      · by_cases hB : env.r2.output_bytes > env.downloadBytes ∧
            cfg.accept_retry_output = false
        · simp [qualityPhase, hLarger, hA, hR, hX, hF, hB, transcodeTrace]
        · simp only [qualityPhase]
          rw [if_pos hLarger, if_neg (by simp [hA]), if_pos hR, if_neg hX, if_neg hF,
            if_neg hB, replacePhase_transcodeTrace]
          simp [transcodeTrace]
    · intro hF
      simp [qualityPhase, hLarger, hA, hR, hX, hF]
    · intro hs2 hv2 hle
      have hF : ¬(env.r2.success = false ∨ env.v2 = false) := by simp [hs2, hv2]
      have hB : ¬(env.r2.output_bytes > env.downloadBytes ∧
          cfg.accept_retry_output = false) := fun h => absurd h.1 (by omega)
      simp only [qualityPhase]
      rw [if_pos hLarger, if_neg (by simp [hA]), if_pos hR, if_neg hX, if_neg hF,
        if_neg hB]
      exact replacePhase_upload_mem _ _ _ _ _ _ _ _ _ hraise
    · intro hs2 hv2 hgt hacc
      have hF : ¬(env.r2.success = false ∨ env.v2 = false) := by simp [hs2, hv2]
      have hB : ¬(env.r2.output_bytes > env.downloadBytes ∧
          cfg.accept_retry_output = false) := by simp [hacc]
      simp only [qualityPhase]
      rw [if_pos hLarger, if_neg (by simp [hA]), if_pos hR, if_neg hX, if_neg hF,
        if_neg hB]
      exact replacePhase_upload_mem _ _ _ _ _ _ _ _ _ hraise
    · intro hs2 hv2 hgt hacc
      have hF : ¬(env.r2.success = false ∨ env.v2 = false) := by simp [hs2, hv2]
      have hB : env.r2.output_bytes > env.downloadBytes ∧
          cfg.accept_retry_output = false := ⟨hgt, hacc⟩
      simp [qualityPhase, hLarger, hA, hR, hX, hF, hB]

/-- Concrete inputs for the C2 witness: image asset, retry enabled, first
output larger than the input, second output smaller. -/
def cfgRetry : ConfigM :=
  { dry_run := false, allow_larger := false, enable_retry := true,
    accept_retry_output := false, image_distance := 1, image_distance_retry := 2,
    video_crf := 36, video_crf_retry := 40, workdir := "/work" }

def assetImg : AssetM :=
  { id := "orig", original_file_name := ['a', '.', 'p', 'n', 'g'],
    original_mime_type := some "image/png".toList, type := "IMAGE",
    device_asset_id := "d", device_id := "dev" }

def envRetry : OracleEnv :=
  { raiseAt := none, downloadErr := none, downloadBytes := 10,
    inputFileCreated := true, dryRunCodec := none,
    r1 := { success := true, output_bytes := 20, error := none }, v1 := true,
    outputFileCreated1 := true,
    r2 := { success := true, output_bytes := 5, error := none }, v2 := true,
    outputFileCreated2 := true, uploadId := some "new", uploadErr := none,
    copyOk := true, verifyOk := true, deleteOrigOk := true }

/-- Witness for C2: the retry path accepts the second, smaller output and
proceeds to the upload. -/
theorem claim_C2_witness :
    AEvent.uploadCall ∈ (process_asset cfgRetry assetImg envRetry).events :=
  ((claim_C2_quality_retry_policy cfgRetry assetImg envRetry
      ⟨Or.inr (by decide), rfl, rfl, rfl, rfl, rfl⟩
      (by decide)).2.2 rfl rfl).2.2.1 rfl rfl (by decide)

/-- C6: on every exit path of the per-asset pipeline — pre-filter skip,
dry-run, every failure status, success, and an injected exception escaping
any step — neither scratch file for the asset exists once the pipeline
returns (the `finally` block removes both; `os.remove` is modelled as
effective). -/
theorem claim_C6_scratch_cleanup (cfg : ConfigM) (asset : AssetM) (env : OracleEnv) :
    input_path cfg asset ∉ (process_asset cfg asset env).filesAfter ∧
    output_path cfg asset ∉ (process_asset cfg asset env).filesAfter := by
  rcases process_asset_filesAfter cfg asset env with h | ⟨g, h⟩
  · simp [h]
  · rw [h]
    exact ⟨scrub_not_mem _ _ _ _ (Or.inl rfl), scrub_not_mem _ _ _ _ (Or.inr rfl)⟩

/-! ### immich_api.py: transport retry policy (claim C9) -/

/-- Outcome of one HTTP request attempt: a status code, or a
`requests.RequestException` (network-level error). -/
inductive ROutcome
  | status (code : Nat)
  | netError
  deriving DecidableEq

/-- Result of `_request_with_retry`: a returned response (its status code) or
a raised `RuntimeError` with its message. -/
inductive ReqResult
  | ok (code : Nat)
  | raised (msg : String)
  deriving DecidableEq

def authFailedMsg : String := "Authentication failed - check IMMICH_API_KEY"

def forbiddenMsg : String := "Forbidden - API key lacks required permissions"

/-- Loop of `_request_with_retry` (immich_api.py 53-85).  `attempt` is the
loop index, `fuel` the remaining iterations (`retry_max + 1` in total); the
second component of the result counts the attempts actually issued.  401/403
raise immediately; 404 is returned as a normal response; 429 and 5xx retry
while attempts remain, otherwise the response is returned; network errors
retry while attempts remain, otherwise raise. -/
def requestWithRetryAux (resp : Nat → ROutcome) (retryMax : Nat) :
    Nat → Nat → ReqResult × Nat
  | attempt, 0 => (ReqResult.raised "Request failed", attempt)
  | attempt, fuel + 1 =>
    match resp attempt with
    | ROutcome.netError =>
      if attempt < retryMax then requestWithRetryAux resp retryMax (attempt + 1) fuel
      else (ReqResult.raised "Request failed", attempt + 1)
    | ROutcome.status code =>
      if code = 401 then (ReqResult.raised authFailedMsg, attempt + 1)
      else if code = 403 then (ReqResult.raised forbiddenMsg, attempt + 1)
      else if code = 404 then (ReqResult.ok 404, attempt + 1)
      else if (code = 429 ∨ 500 ≤ code) ∧ attempt < retryMax then
        requestWithRetryAux resp retryMax (attempt + 1) fuel
      else (ReqResult.ok code, attempt + 1)

def requestWithRetry (resp : Nat → ROutcome) (retryMax : Nat) : ReqResult × Nat :=
  requestWithRetryAux resp retryMax 0 (retryMax + 1)

/-- `download_original` (immich_api.py 128-147): every exception raised by
the transport helper — including the 401/403 `RuntimeError` — is caught and
converted into a `(0, "Download failed: ...")` return value; a non-200
status likewise; on success the downloaded byte count is returned. -/
def download_original (resp : Nat → ROutcome) (retryMax : Nat) (fileSize : Nat) :
    Nat × Option String :=
  match requestWithRetry resp retryMax with
  | (ReqResult.raised msg, _) => (0, some ("Download failed: " ++ msg))
  | (ReqResult.ok code, _) =>
    if code ≠ 200 then (0, some ("Download failed: HTTP " ++ toString code))
    else (fileSize, none)

/-- One upload attempt outcome: an HTTP status carrying the asset id from the
response body, or a network error. -/
inductive UOutcome
  | status (code : Nat) (ident : Option String)
  | netError
  deriving DecidableEq

/-- The retry loop of `upload_asset` (immich_api.py 189-228): 401/403 return
an error tuple immediately (neither retried nor raised); 429/5xx retry while
attempts remain; 200/201 return the created id; other statuses return an
error tuple (the response-body detail is abstracted to the status code);
network errors retry, exhaustion falls through to the trailing error
return. -/
def upload_assetAux (resp : Nat → UOutcome) (retryMax : Nat) :
    Nat → Nat → (Option String × Option String) × Nat
  | attempt, 0 => ((none, some "Upload failed after retries"), attempt)
  | attempt, fuel + 1 =>
    match resp attempt with
    | UOutcome.netError =>
      if attempt < retryMax then upload_assetAux resp retryMax (attempt + 1) fuel
      else ((none, some "Upload failed after retries"), attempt + 1)
    | UOutcome.status code ident =>
      if code = 401 then ((none, some authFailedMsg), attempt + 1)
      else if code = 403 then ((none, some forbiddenMsg), attempt + 1)
      else if (code = 429 ∨ 500 ≤ code) ∧ attempt < retryMax then
        upload_assetAux resp retryMax (attempt + 1) fuel
      else if code = 200 ∨ code = 201 then ((ident, none), attempt + 1)
      else ((none, some ("Upload failed: HTTP " ++ toString code)), attempt + 1)

def upload_asset (resp : Nat → UOutcome) (retryMax : Nat) :
    (Option String × Option String) × Nat :=
  upload_assetAux resp retryMax 0 (retryMax + 1)

theorem request_auth_once (resp : Nat → ROutcome) (retryMax : Nat)
    (h : resp 0 = ROutcome.status 401) :
    requestWithRetry resp retryMax = (ReqResult.raised authFailedMsg, 1) := by
  simp [requestWithRetry, requestWithRetryAux, h]

theorem request_forbidden_once (resp : Nat → ROutcome) (retryMax : Nat)
    (h : resp 0 = ROutcome.status 403) :
    requestWithRetry resp retryMax = (ReqResult.raised forbiddenMsg, 1) := by
  simp [requestWithRetry, requestWithRetryAux, h]

theorem download_auth_converted (resp : Nat → ROutcome) (retryMax fileSize : Nat)
    (h : resp 0 = ROutcome.status 401) :
    download_original resp retryMax fileSize =
      (0, some ("Download failed: " ++ authFailedMsg)) := by
  simp [download_original, request_auth_once resp retryMax h]

theorem upload_auth_once (resp : Nat → UOutcome) (retryMax : Nat) (ident : Option String)
    (h : resp 0 = UOutcome.status 401 ident) :
    upload_asset resp retryMax = ((none, some authFailedMsg), 1) := by
  simp [upload_asset, upload_assetAux, h]

theorem upload_forbidden_once (resp : Nat → UOutcome) (retryMax : Nat)
    (ident : Option String) (h : resp 0 = UOutcome.status 403 ident) :
    upload_asset resp retryMax = ((none, some forbiddenMsg), 1) := by
  simp [upload_asset, upload_assetAux, h]

/-- A run that passes the pre-filter, is not a dry run, and has no injected
exception, reaches the download call. -/
def reachesDownload (cfg : ConfigM) (asset : AssetM) (env : OracleEnv) : Prop :=
  ((asset.type == "VIDEO") = true ∨ should_skip_by_mime_type asset = false) ∧
  cfg.dry_run = false ∧ env.raiseAt = none

theorem download_error_per_asset (cfg : ConfigM) (asset : AssetM) (env : OracleEnv)
    (hreach : reachesDownload cfg asset env) (hsome : env.downloadErr.isSome = true) :
    (process_asset cfg asset env).status = some "failed_download" := by
  obtain ⟨hpre, hdry, hraise⟩ := hreach
  rcases Option.isSome_iff_exists.mp hsome with ⟨e, he⟩
  rcases hpre with hp | hp <;> simp [process_asset, hp, hdry, hraise, he]

theorem upload_error_per_asset (cfg : ConfigM) (asset : AssetM) (env : OracleEnv)
    (hreach : reachesSizeGate cfg asset env)
    (hsz : env.r1.output_bytes ≤ env.downloadBytes)
    (hsome : env.uploadErr.isSome = true) :
    (process_asset cfg asset env).status = some "failed_upload" := by
  have hraise : env.raiseAt = none := hreach.2.2.1
  rw [process_asset_sizeGate cfg asset env hreach]
  simp only [qualityPhase]
  rw [if_neg (by omega)]
  simp [replacePhase, hraise, hsome]

/-- C9 (amended): an HTTP 401 or 403 is never retried — the transport helper
raises after exactly one attempt, and the upload loop returns the auth error
after exactly one attempt — but within a per-asset pipeline it does not abort
the run: `download_original` catches the raised error and returns it as a
value, `upload_asset` returns an error tuple, and `process_asset` turns these
into the per-asset statuses "failed_download" / "failed_upload" after which
the batch continues.  (Only the startup connectivity test, outside
`process_asset`, turns an auth failure into a whole-run abort.) -/
theorem claim_C9_auth_never_retried_but_per_asset :
    (∀ (resp : Nat → ROutcome) (retryMax : Nat), resp 0 = ROutcome.status 401 →
      requestWithRetry resp retryMax = (ReqResult.raised authFailedMsg, 1)) ∧
    (∀ (resp : Nat → ROutcome) (retryMax : Nat), resp 0 = ROutcome.status 403 →
      requestWithRetry resp retryMax = (ReqResult.raised forbiddenMsg, 1)) ∧
    (∀ (resp : Nat → ROutcome) (retryMax fileSize : Nat),
      resp 0 = ROutcome.status 401 →
      download_original resp retryMax fileSize =
        (0, some ("Download failed: " ++ authFailedMsg))) ∧
    (∀ (resp : Nat → UOutcome) (retryMax : Nat) (ident : Option String),
      resp 0 = UOutcome.status 401 ident →
      upload_asset resp retryMax = ((none, some authFailedMsg), 1)) ∧
    (∀ (resp : Nat → UOutcome) (retryMax : Nat) (ident : Option String),
      resp 0 = UOutcome.status 403 ident →
      upload_asset resp retryMax = ((none, some forbiddenMsg), 1)) ∧
    (∀ (cfg : ConfigM) (asset : AssetM) (env : OracleEnv),
      reachesDownload cfg asset env → env.downloadErr.isSome = true →
      (process_asset cfg asset env).status = some "failed_download") ∧
    (∀ (cfg : ConfigM) (asset : AssetM) (env : OracleEnv),
      reachesSizeGate cfg asset env → env.r1.output_bytes ≤ env.downloadBytes →
      env.uploadErr.isSome = true →
      (process_asset cfg asset env).status = some "failed_upload") :=
  ⟨request_auth_once, request_forbidden_once, download_auth_converted,
   upload_auth_once, upload_forbidden_once, download_error_per_asset,
   upload_error_per_asset⟩

/-- Every request of this oracle answers HTTP 401. -/
def resp401 : Nat → ROutcome := fun _ => ROutcome.status 401

def cfgC9 : ConfigM :=
  { dry_run := false, allow_larger := false, enable_retry := true,
    accept_retry_output := false, image_distance := 1, image_distance_retry := 2,
    video_crf := 36, video_crf_retry := 40, workdir := "/work" }

def assetC9 : AssetM :=
  { id := "orig9", original_file_name := ['b', '.', 'j', 'p', 'g'],
    original_mime_type := some "image/jpeg".toList, type := "IMAGE",
    device_asset_id := "d", device_id := "dev" }

/-- The oracle of a pipeline run whose download hits a 401: the error string
handed to `process_asset` is exactly what `download_original` returns. -/
def envC9 : OracleEnv :=
  { raiseAt := none, downloadErr := (download_original resp401 3 50).2,
    downloadBytes := (download_original resp401 3 50).1,
    inputFileCreated := false, dryRunCodec := none,
    r1 := { success := false, output_bytes := 0, error := none }, v1 := false,
    outputFileCreated1 := false,
    r2 := { success := false, output_bytes := 0, error := none }, v2 := false,
    outputFileCreated2 := false, uploadId := none, uploadErr := none,
    copyOk := false, verifyOk := false, deleteOrigOk := false }

/-- Counterexample to C9 as stated: a 401 on the download of a per-asset
pipeline is converted into the per-asset status "failed_download" — the
pipeline returns normally (no exception escapes, status ≠ none) and the batch
continues — instead of aborting the whole run. -/
theorem claim_C9_counterexample :
    (download_original resp401 3 50).2 =
      some ("Download failed: " ++ authFailedMsg) ∧
    (requestWithRetry resp401 3).2 = 1 ∧
    (process_asset cfgC9 assetC9 envC9).status = some "failed_download" ∧
    (process_asset cfgC9 assetC9 envC9).status ≠ none := by
  refine ⟨by decide, by decide, ?_, ?_⟩ <;> decide

/-- Witness for the amended C9 at concrete oracles. -/
theorem claim_C9_witness :
    requestWithRetry resp401 3 = (ReqResult.raised authFailedMsg, 1) ∧
    upload_asset (fun _ => UOutcome.status 403 none) 3 =
      ((none, some forbiddenMsg), 1) ∧
    (process_asset cfgC9 assetC9 envC9).status = some "failed_download" :=
  ⟨claim_C9_auth_never_retried_but_per_asset.1 resp401 3 rfl,
   claim_C9_auth_never_retried_but_per_asset.2.2.2.2.1 _ 3 none rfl,
   claim_C9_auth_never_retried_but_per_asset.2.2.2.2.2.1 cfgC9 assetC9 envC9
     ⟨Or.inr (by decide), rfl, rfl⟩ (by decide)⟩

end ImmichConvert
